import Mathlib

/-!
Verification of the whatsmiau event pipeline (repository jonemp31/miau-jon).

Shallow embedding of the Go source: the event router (`Handle` and its
per-kind handlers), the webhook delivery retry loop (`sendWebhookWithRetry`),
the read-through instance cache (`getInstanceCached`), the always-online
presence scheduler (`processAlwaysOnlineInstances`), the contact converters,
and the synchronous command operations (send/read/chat).

External collaborators (whatsmeow client calls, HTTP, JID resolution,
profile-picture fetch) are modelled as oracles supplied through environment
records: the embedding fixes the control flow of the source and leaves the
collaborators' answers free.
-/

namespace Whatsmiau

/-- `types.JID` of whatsmeow: user plus server. -/
structure JID where
  user : String := ""
  server : String := ""
deriving DecidableEq, Repr

/-- `models.Webhook`: the per-instance webhook configuration used by the
router (`instance.Webhook.Events`, `instance.Webhook.Url`,
`instance.Webhook.Base64`). -/
structure Webhook where
  Events : List String := []
  Url : String := ""
  Base64 : Option Bool := none
deriving DecidableEq, Repr

/-- `models.Instance` restricted to the fields the embedded code reads:
`ID`, `Webhook`, `ReadMessages`, `GroupsIgnore`.
`SkipOwnMessages` and `AutoReceipt` are modelled from the spec (the
own-message-skip and auto-read-receipt policy flags; the defaults
`DEFAULT_SKIP_OWN_MESSAGES` / `DEFAULT_AUTO_RECEIPT` exist in the
environment configuration, but the router code under src/ never reads
`AutoReceipt`). -/
structure Instance where
  ID : String := ""
  webhook : Webhook := {}
  ReadMessages : Bool := false
  GroupsIgnore : Bool := false
  SkipOwnMessages : Bool := false
  AutoReceipt : Bool := false
deriving DecidableEq, Repr

/-! ## Delivery retry (`sendWebhookWithRetry`) -/

/-- Outcome of one `httpClient.Do` call: a transport error or an HTTP
status code. -/
inductive DoResult where
  | transportError
  | status (code : Nat)
deriving DecidableEq, Repr

/-- `retryDelays` of `sendWebhookWithRetry`, in seconds. -/
def retryDelays : List Nat := [2, 5, 10]

/-- `maxRetries` of `sendWebhookWithRetry`. -/
def maxRetries : Nat := 3

/-- Trace of one delivery task: number of HTTP attempts performed, the
backoff delays slept (seconds), and whether a success status terminated
the task. -/
structure RetryTrace where
  attempts : Nat
  delays : List Nat
  delivered : Bool
deriving DecidableEq, Repr

/-- The attempt loop of `sendWebhookWithRetry`
(`for attempt := 0; attempt <= maxRetries; attempt++`): before every
attempt after the first, sleep `retryDelays[attempt-1]`; perform the HTTP
call; return on `http.StatusOK` (200); otherwise continue.  `doRes i` is
the outcome of the HTTP call of attempt `i`.  The fuel argument is the
number of loop iterations left (`maxRetries + 1` at entry).  Request
creation (`http.NewRequestWithContext` with the constant method and the
task's URL) is modelled as always succeeding. -/
def webhookLoop (doRes : Nat → DoResult) (attempt : Nat) : Nat → RetryTrace
  | 0 => { attempts := 0, delays := [], delivered := false }
  | fuel + 1 =>
    let ds : List Nat := if attempt > 0 then [retryDelays.getD (attempt - 1) 0] else []
    if doRes attempt = .status 200 then { attempts := 1, delays := ds, delivered := true }
    else
      let rest := webhookLoop doRes (attempt + 1) fuel
      { attempts := rest.attempts + 1, delays := ds ++ rest.delays, delivered := rest.delivered }

/-- `sendWebhookWithRetry`: marshal the payload (on marshal failure return
with no attempt), then run the attempt loop.  After the loop the task is
abandoned (the function returns; nothing re-enqueues it). -/
def sendWebhookWithRetry (marshalOk : Bool) (doRes : Nat → DoResult) : RetryTrace :=
  if marshalOk then webhookLoop doRes 0 (maxRetries + 1)
  else { attempts := 0, delays := [], delivered := false }

/-! ## Instance cache (`getInstanceCached`) -/

/-- State of the `go-cache` instance cache: for each id, the stored
instance and its expiry timestamp.  `cacheGet` follows go-cache `Get`: an
entry is expired once `now` is strictly past its expiry. -/
def CacheState : Type := String → Option (Instance × Nat)

/-- go-cache `Get` at time `now`: the stored value, unless absent or
expired (found is false if absent or expired). -/
def cacheGet (st : CacheState) (id : String) (now : Nat) : Option Instance :=
  match st id with
  | none => none
  | some (v, exp) => if now > exp then none else some v

/-- go-cache `Set` with the default TTL: stores the value with expiry
`now + ttl`. -/
def cacheSet (st : CacheState) (id : String) (v : Instance) (now ttl : Nat) : CacheState :=
  fun k => if k = id then some (v, now + ttl) else st k

/-- Result of `getInstanceCached` as seen by the caller: the instance, a
nil result, or a `zap.L().Panic` on the lookup-failure path. -/
inductive LookupOutcome where
  | found (i : Instance)
  | notFound
  | panicked
deriving DecidableEq, Repr

/-- `getInstanceCached`: try the cache first; on miss or expiry call
`repo.List` (`repoList` is its result: a list of instances or an error).
A lookup error reaches `zap.L().Panic`; an empty result returns nil; a
non-empty result is stored in the cache with a fresh TTL and returned.
The returned triple is (outcome, new cache state, number of backing
lookups issued by this call). -/
def getInstanceCached (st : CacheState) (id : String) (now ttl : Nat)
    (repoList : Except Unit (List Instance)) : LookupOutcome × CacheState × Nat :=
  match cacheGet st id now with
  | some inst => (.found inst, st, 0)
  | none =>
    match repoList with
    | .error _ => (.panicked, st, 1)
    | .ok [] => (.notFound, st, 1)
    | .ok (x :: _) => (.found x, cacheSet st id x now ttl, 1)

/-- The empty cache (first access: no entry for any id). -/
def emptyCache : CacheState := fun _ => none

/-! ## Event router data model -/

/-- The event-kind tags of the emitted webhook payloads
(`WookMessagesUpsert`, `WookMessagesUpdate`, `WookContactsUpsert`,
`WookConnectionUpdate`). -/
inductive WookEventKind where
  | messagesUpsert
  | messagesUpdate
  | contactsUpsert
  | connectionUpdate
deriving DecidableEq, Repr

/-- The subscription-filter string each handler checks in the event map
before emitting a payload of the given kind. -/
def subscriptionKey : WookEventKind → String
  | .messagesUpsert => "MESSAGES_UPSERT"
  | .messagesUpdate => "MESSAGES_UPDATE"
  | .contactsUpsert => "CONTACTS_UPSERT"
  | .connectionUpdate => "CONNECTION_UPDATE"

/-- One payload handed to `s.emit` (enqueued on the delivery channel):
its event kind, the destination URL, the owning instance, and — for
connection updates — the status string. -/
structure Emission where
  kind : WookEventKind
  url : String := ""
  instanceId : String := ""
  connStatus : String := ""
deriving DecidableEq, Repr

/-- The fire-and-forget side channels scheduled by `handleMessageEvent`:
`go s.sendDeliveryReceipt(id, e)` and
`go s.markAsReadAfterDelay(id, e, 8*time.Second)`. -/
inductive Action where
  | deliveryReceipt
  | readReceiptAfter (delaySeconds : Nat)
deriving DecidableEq, Repr

/-- A live whatsmeow client as the embedded code observes it:
`client.Store.ID` (nil store and nil ID collapsed into `none`),
`client.IsConnected()` and `client.IsLoggedIn()`. -/
structure Client where
  storeID : Option JID := none
  connected : Bool := true
  loggedIn : Bool := true
deriving DecidableEq, Repr

/-- `events.Message` restricted to the fields the router reads:
`e.Info.IsFromMe` and `e.Info.Chat.Server`; `hasEmptyBody` stands for
the spec's required-fields condition consumed by the modelled
`canIgnoreMessage`. -/
structure MessageEvent where
  isFromMe : Bool := false
  chatServer : String := ""
  hasEmptyBody : Bool := false
deriving DecidableEq, Repr

/-- `types.ReceiptType` restricted to the cases `convertEventReceipt`
distinguishes. -/
inductive ReceiptType where
  | read
  | delivered
  | other
deriving DecidableEq, Repr

/-- `events.Receipt` restricted to the fields the embedded code reads. -/
structure ReceiptEvent where
  type : ReceiptType := .other
  chat : JID := {}
  sender : JID := {}
  isFromMe : Bool := false
  messageIDs : List String := []
deriving DecidableEq, Repr

/-- `events.Contact`: the identity plus the three candidate name sources
`evt.Action.GetFirstName()`, `GetFullName()`, `GetUsername()`. -/
structure ContactEvent where
  jid : JID := {}
  firstName : String := ""
  fullName : String := ""
  username : String := ""
deriving DecidableEq, Repr

/-- `events.Picture`: only the identity is read. -/
structure PictureEvent where
  jid : JID := {}
deriving DecidableEq, Repr

/-- `events.GroupInfo`: `evt.Name` is a nullable pointer whose `Name`
field is the candidate group name. -/
structure GroupInfoEvent where
  jid : JID := {}
  name : Option String := none
deriving DecidableEq, Repr

/-- `events.PushName`: old and new push name. -/
structure PushNameEvent where
  jid : JID := {}
  newPushName : String := ""
  oldPushName : String := ""
deriving DecidableEq, Repr

/-- The `evt.Message` part of `events.BusinessName`: `PushName`, and
`VerifiedName.Details.GetVerifiedName()` with the two nil pointers
collapsed into `none`. -/
structure BNMessage where
  pushName : String := ""
  verifiedName : Option String := none
deriving DecidableEq, Repr

/-- `events.BusinessName` restricted to the fields the converter reads. -/
structure BusinessNameEvent where
  jid : JID := {}
  newBusinessName : String := ""
  oldBusinessName : String := ""
  message : Option BNMessage := none
deriving DecidableEq, Repr

/-- One `waHistorySync.Pushname`: `GetID()` and `GetPushname()`. -/
structure HSPushname where
  id : String := ""
  pushname : String := ""
deriving DecidableEq, Repr

/-- One `waHistorySync.Conversation`: `GetID()`, `GetName()`,
`GetDisplayName()`, `GetUsername()`. -/
structure HSConversation where
  id : String := ""
  name : String := ""
  displayName : String := ""
  username : String := ""
deriving DecidableEq, Repr

/-- The converted contact payload (`WookContact`). -/
structure WookContact where
  RemoteJid : String := ""
  RemoteLid : String := ""
  PushName : String := ""
  ProfilePicUrl : String := ""
  Base64Pic : String := ""
  InstanceId : String := ""
deriving DecidableEq, Repr

/-- `WookMessageUpdateStatus` (`MessageStatusRead`,
`MessageStatusDeliveryAck`). -/
inductive WookMessageUpdateStatus where
  | read
  | deliveryAck
deriving DecidableEq, Repr

/-- One element of the converted receipt payload
(`WookMessageUpdateData`). -/
structure WookMessageUpdateData where
  MessageId : String := ""
  KeyId : String := ""
  RemoteJid : String := ""
  RemoteLid : String := ""
  FromMe : Bool := false
  Participant : String := ""
  status : WookMessageUpdateStatus := .read
  InstanceId : String := ""
deriving DecidableEq, Repr

/-- The converted message payload, abstracted: `convertEventMessage`
performs media download/upload and JID resolution against external
collaborators, so the router embedding treats its result as supplied by
the environment; only its success or failure (nil) gates emission. -/
structure WookMessageData where
  instanceId : String := ""
  messageTimestamp : Int := 0
deriving DecidableEq, Repr

/-- The external collaborators of the router, supplied as oracles:
`convertEventMessage` (media/JID work), `GetJidLid` (jid/lid
resolution), `getPic` (profile-picture URL and base64), and
`types.ParseJID`. -/
structure Env where
  convertEventMessage : String → Instance → MessageEvent → Option WookMessageData
  getJidLid : String → JID → String × String
  getPic : String → JID → String × String
  parseJID : String → Option JID

/-! ## Content policy and name resolution -/

/-- Modelled from the spec: `canIgnoreGroup` is code of this repository
that is not under src/ (only its callers are).  Spec §4.2 step 4: drop
if the event concerns a group chat and the instance has group-skip
enabled; drop if it is a self-sent message and own-message-skip is
enabled. -/
def canIgnoreGroup (chatServer : String) (isFromMe : Bool) (inst : Instance) : Bool :=
  (chatServer == "g.us" && inst.GroupsIgnore) || (isFromMe && inst.SkipOwnMessages)

/-- Modelled from the spec: `canIgnoreMessage` is code of this
repository that is not under src/ (only its caller is).  Spec §4.2
step 4: drop if the event concerns a broadcast/status chat; drop events
lacking required fields (empty message body). -/
def canIgnoreMessage (e : MessageEvent) : Bool :=
  e.chatServer == "broadcast" || e.hasEmptyBody

/-- Go `strings.Split` with a one-character separator, over the
character list of the string (an empty input yields one empty part, as
in Go). -/
def splitChar (sep : Char) : List Char → List (List Char)
  | [] => [[]]
  | c :: rest =>
    let r := splitChar sep rest
    if c = sep then [] :: r
    else
      match r with
      | [] => [[c]]
      | h :: t => (c :: h) :: t

/-- The chat-identifier test the converters apply to a candidate name:
`strings.Split(name, "@")` yields exactly two parts and the second is
"g.us" or "s.whatsapp.net". -/
def looksLikeChatJid (name : String) : Bool :=
  match splitChar (Char.ofNat 64) name.data with
  | [_, sfx] => sfx == "g.us".data || sfx == "s.whatsapp.net".data
  | _ => false

/-- Specification-side name resolution (§4.2 step 5): the first
non-empty candidate in priority order, or "" if every candidate is
empty. -/
def firstNonEmpty : List String → String
  | [] => ""
  | n :: rest => if n = "" then firstNonEmpty rest else n

/-! ## Converters -/

/-- `convertContact`: candidate order first name, full name, username;
empty resolved name or a chat-identifier shaped name yields nil. -/
def convertContact (env : Env) (id : String) (e : ContactEvent) : Option WookContact :=
  let pic := env.getPic id e.jid
  let name0 := e.firstName
  let name1 := if name0 = "" then e.fullName else name0
  let name := if name1 = "" then e.username else name1
  if name = "" then none
  else if looksLikeChatJid name then none
  else
    let jl := env.getJidLid id e.jid
    some { RemoteJid := jl.1, RemoteLid := jl.2, PushName := name,
           ProfilePicUrl := pic.1, InstanceId := id }

/-- `convertGroupInfo`: nil or empty group name yields nil; a
chat-identifier shaped name yields nil. -/
def convertGroupInfo (env : Env) (id : String) (e : GroupInfoEvent) : Option WookContact :=
  let pic := env.getPic id e.jid
  match e.name with
  | none => none
  | some n =>
    if n = "" then none
    else if looksLikeChatJid n then none
    else
      let jl := env.getJidLid id e.jid
      some { RemoteJid := jl.1, PushName := n, ProfilePicUrl := pic.1,
             InstanceId := id, RemoteLid := jl.2 }

/-- `convertPushName`: falls back from the new to the old push name to
decide emission, but the emitted `PushName` field is always
`evt.NewPushName`. -/
def convertPushName (env : Env) (id : String) (e : PushNameEvent) : Option WookContact :=
  let pic := env.getPic id e.jid
  let name := if e.newPushName = "" then e.oldPushName else e.newPushName
  if name = "" then none
  else if looksLikeChatJid name then none
  else
    let jl := env.getJidLid id e.jid
    some { RemoteJid := jl.1, PushName := e.newPushName, InstanceId := id,
           ProfilePicUrl := pic.1, RemoteLid := jl.2 }

/-- `convertPicture`: emits only when a profile-picture URL was
obtained. -/
def convertPicture (env : Env) (id : String) (e : PictureEvent) : Option WookContact :=
  let pic := env.getPic id e.jid
  if pic.1 = "" then none
  else
    let jl := env.getJidLid id e.jid
    some { RemoteJid := jl.1, InstanceId := id, Base64Pic := pic.2,
           ProfilePicUrl := pic.1, RemoteLid := jl.2 }

/-- `convertBusinessName`: candidate order new business name, old
business name, message push name, verified name; a chat-identifier
shaped resolved name yields nil, but an empty resolved name is NOT
rejected (the contact is emitted with an empty display name). -/
def convertBusinessName (env : Env) (id : String) (e : BusinessNameEvent) : Option WookContact :=
  let pic := env.getPic id e.jid
  let n0 := e.newBusinessName
  let n1 := if n0 = "" then e.oldBusinessName else n0
  let n2 := if n1 = "" then (match e.message with | some m => m.pushName | none => n1) else n1
  let name := if n2 = "" then
      (match e.message with
       | some m => (match m.verifiedName with | some v => v | none => n2)
       | none => n2)
    else n2
  if looksLikeChatJid name then none
  else
    let jl := env.getJidLid id e.jid
    some { RemoteJid := jl.1, InstanceId := id, Base64Pic := pic.2,
           ProfilePicUrl := pic.1, PushName := name, RemoteLid := jl.2 }

/-- `convertEventReceipt`: read and delivered receipts map to one update
per message id; any other receipt type yields nil. -/
def convertEventReceipt (env : Env) (id : String) (e : ReceiptEvent) :
    Option (List WookMessageUpdateData) :=
  match (match e.type with
         | .read => some WookMessageUpdateStatus.read
         | .delivered => some WookMessageUpdateStatus.deliveryAck
         | .other => none) with
  | none => none
  | some st =>
    let cj := env.getJidLid id e.chat
    let pj := env.getJidLid id e.sender
    some (e.messageIDs.map (fun mid =>
      { MessageId := mid, KeyId := mid, RemoteJid := cj.1, RemoteLid := cj.2,
        FromMe := e.isFromMe, Participant := pj.1, status := st, InstanceId := id }))

/-! ## History-sync contact conversion -/

/-- Go map assignment `resultMap[k] = v` on an association list (the
map's iteration order is unspecified in Go; the model fixes insertion
order, which no claim depends on). -/
def assocSet (m : List (String × WookContact)) (k : String) (v : WookContact) :
    List (String × WookContact) :=
  if m.any (fun p => p.1 == k) then m.map (fun p => if p.1 == k then (k, v) else p)
  else m ++ [(k, v)]

/-- The pushname loop of `convertContactHistorySync`: skip empty push
names; a chat-identifier shaped push name or an unparsable JID aborts
the whole conversion (returns nil); otherwise record the contact under
the resolved jid. -/
def histPushLoop (env : Env) (id : String) :
    List HSPushname → List (String × WookContact) → Option (List (String × WookContact))
  | [], m => some m
  | p :: rest, m =>
    if p.pushname = "" then histPushLoop env id rest m
    else if looksLikeChatJid p.pushname then none
    else
      match env.parseJID p.id with
      | none => none
      | some jid =>
        let jl := env.getJidLid id jid
        histPushLoop env id rest (assocSet m jl.1
          { RemoteJid := jl.1, PushName := p.pushname, InstanceId := id, RemoteLid := jl.2 })

/-- The conversation loop of `convertContactHistorySync`: resolve the
name as the first non-empty of name, display name, username; skip
all-empty; a chat-identifier shaped name or an unparsable JID aborts the
whole conversion; otherwise record the contact under the raw
conversation id. -/
def histConvLoop (env : Env) (id : String) :
    List HSConversation → List (String × WookContact) → Option (List (String × WookContact))
  | [], m => some m
  | c :: rest, m =>
    let n0 := c.name
    let n1 := if n0 = "" then c.displayName else n0
    let name := if n1 = "" then c.username else n1
    if name = "" then histConvLoop env id rest m
    else if looksLikeChatJid name then none
    else
      match env.parseJID c.id with
      | none => none
      | some jid =>
        let jl := env.getJidLid id jid
        histConvLoop env id rest (assocSet m c.id
          { RemoteJid := jl.1, PushName := name, InstanceId := id, RemoteLid := jl.2 })

/-- Final loop of `convertContactHistorySync`: drop entries whose
recorded jid fails to parse, attach the profile-picture URL, collect. -/
def histFinal (env : Env) (id : String) : List (String × WookContact) → List WookContact
  | [] => []
  | (_, c) :: rest =>
    match env.parseJID c.RemoteJid with
    | none => histFinal env id rest
    | some jid =>
      let pic := env.getPic id jid
      { c with ProfilePicUrl := pic.1 } :: histFinal env id rest

/-- `convertContactHistorySync`: run both loops over a shared result
map, then the final collection loop.  A Go nil slice is returned when
the conversion was aborted or nothing was collected (`none` here); the
caller treats both identically. -/
def convertContactHistorySync (env : Env) (id : String) (pushnames : List HSPushname)
    (conversations : List HSConversation) : Option (List WookContact) :=
  match histPushLoop env id pushnames [] with
  | none => none
  | some m =>
    match histConvLoop env id conversations m with
    | none => none
    | some m2 =>
      let result := histFinal env id m2
      if result.isEmpty then none else some result

/-! ## Per-kind handlers and the router -/

/-- The event map built at the top of `Handle`:
`eventMap[event] = true` for every subscribed event name. -/
def mkEventMap (inst : Instance) : String → Bool :=
  fun s => inst.webhook.Events.contains s

/-- `handleMessageEvent`: subscription gate, content policy, conversion,
receipt side channels, emission. -/
def handleMessageEvent (env : Env) (id : String) (inst : Instance) (e : MessageEvent)
    (eventMap : String → Bool) : List Emission × List Action :=
  if eventMap "MESSAGES_UPSERT" = false then ([], [])
  else if canIgnoreGroup e.chatServer e.isFromMe inst then ([], [])
  else if canIgnoreMessage e then ([], [])
  else
    match env.convertEventMessage id inst e with
    | none => ([], [])
    | some _ =>
      let receiptActs := if e.isFromMe == false && e.chatServer != "broadcast"
        then [Action.deliveryReceipt] else []
      let readActs := if inst.ReadMessages && e.isFromMe == false && e.chatServer != "broadcast"
        then [Action.readReceiptAfter 8] else []
      ([{ kind := .messagesUpsert, url := inst.webhook.Url, instanceId := inst.ID }],
       receiptActs ++ readActs)

/-- `handleReceiptEvent`: subscription gate, group policy, conversion,
one emission per converted update. -/
def handleReceiptEvent (env : Env) (id : String) (inst : Instance) (e : ReceiptEvent)
    (eventMap : String → Bool) : List Emission :=
  if eventMap "MESSAGES_UPDATE" = false then []
  else if canIgnoreGroup e.chat.server e.isFromMe inst then []
  else
    match convertEventReceipt env id e with
    | none => []
    | some l => l.map (fun _ =>
        { kind := .messagesUpdate, url := inst.webhook.Url, instanceId := inst.ID })

/-- `handleBusinessNameEvent`. -/
def handleBusinessNameEvent (env : Env) (id : String) (inst : Instance)
    (e : BusinessNameEvent) (eventMap : String → Bool) : List Emission :=
  if eventMap "CONTACTS_UPSERT" = false then []
  else
    match convertBusinessName env id e with
    | none => []
    | some _ => [{ kind := .contactsUpsert, url := inst.webhook.Url, instanceId := inst.ID }]

/-- `handleContactEvent`. -/
def handleContactEvent (env : Env) (id : String) (inst : Instance) (e : ContactEvent)
    (eventMap : String → Bool) : List Emission :=
  if eventMap "CONTACTS_UPSERT" = false then []
  else if canIgnoreGroup e.jid.server false inst then []
  else
    match convertContact env id e with
    | none => []
    | some _ => [{ kind := .contactsUpsert, url := inst.webhook.Url, instanceId := inst.ID }]

/-- `handlePictureEvent`. -/
def handlePictureEvent (env : Env) (id : String) (inst : Instance) (e : PictureEvent)
    (eventMap : String → Bool) : List Emission :=
  if eventMap "CONTACTS_UPSERT" = false then []
  else
    match convertPicture env id e with
    | none => []
    | some _ => [{ kind := .contactsUpsert, url := inst.webhook.Url, instanceId := inst.ID }]

/-- `handleHistorySyncEvent`: a nil conversion result emits nothing;
otherwise one contacts-upsert payload carries the whole batch. -/
def handleHistorySyncEvent (env : Env) (id : String) (inst : Instance)
    (pushnames : List HSPushname) (conversations : List HSConversation)
    (eventMap : String → Bool) : List Emission :=
  if eventMap "CONTACTS_UPSERT" = false then []
  else
    match convertContactHistorySync env id pushnames conversations with
    | none => []
    | some _ => [{ kind := .contactsUpsert, url := inst.webhook.Url, instanceId := inst.ID }]

/-- `handleGroupInfoEvent`. -/
def handleGroupInfoEvent (env : Env) (id : String) (inst : Instance) (e : GroupInfoEvent)
    (eventMap : String → Bool) : List Emission :=
  if eventMap "CONTACTS_UPSERT" = false then []
  else if inst.GroupsIgnore then []
  else
    match convertGroupInfo env id e with
    | none => []
    | some _ => [{ kind := .contactsUpsert, url := inst.webhook.Url, instanceId := inst.ID }]

/-- `handlePushNameEvent`. -/
def handlePushNameEvent (env : Env) (id : String) (inst : Instance) (e : PushNameEvent)
    (eventMap : String → Bool) : List Emission :=
  if eventMap "CONTACTS_UPSERT" = false then []
  else if canIgnoreGroup e.jid.server false inst then []
  else
    match convertPushName env id e with
    | none => []
    | some _ => [{ kind := .contactsUpsert, url := inst.webhook.Url, instanceId := inst.ID }]

/-- `emitConnectionUpdate`: look the instance up, rebuild the event map,
and emit a connection-update payload only when "CONNECTION_UPDATE" is
subscribed. -/
def emitConnectionUpdate (cacheResult : Option Instance) (status : String) : List Emission :=
  match cacheResult with
  | none => []
  | some inst =>
    if mkEventMap inst "CONNECTION_UPDATE" = false then []
    else [{ kind := .connectionUpdate, url := inst.webhook.Url,
            instanceId := inst.ID, connStatus := status }]

/-- `handleLoggedOut`: emit the close connection update, then — if a
session handle is registered — request device-credential deletion
(`deleteDeviceIfExists` is not under src/; `deleteDeviceOk` is its
observed outcome); on deletion failure the function returns early and
the handle is NOT removed; otherwise `s.clients.Delete(id)` runs.  The
boolean of the result records whether the registry delete ran. -/
def handleLoggedOut (cacheResult : Option Instance) (client : Option Client)
    (deleteDeviceOk : Bool) : List Emission × Bool :=
  let ems := emitConnectionUpdate cacheResult "close"
  match client with
  | some _ => if deleteDeviceOk then (ems, true) else (ems, false)
  | none => (ems, true)

/-- The complete result of one `Handle` invocation: payloads enqueued on
the delivery channel, receipt side channels scheduled, and whether the
session handle was removed from the registry. -/
structure HandleOut where
  emissions : List Emission := []
  actions : List Action := []
  registryDeleted : Bool := false
deriving DecidableEq, Repr

/-- The raw-event union dispatched by `Handle`. -/
inductive RawEvent where
  | loggedOut
  | message (e : MessageEvent)
  | receipt (e : ReceiptEvent)
  | businessName (e : BusinessNameEvent)
  | contact (e : ContactEvent)
  | picture (e : PictureEvent)
  | historySync (pushnames : List HSPushname) (conversations : List HSConversation)
  | groupInfo (e : GroupInfoEvent)
  | pushName (e : PushNameEvent)
  | unknown
deriving DecidableEq, Repr

/-- `Handle`: resolve the instance (an unknown instance drops the event
entirely), build the event map, dispatch on the event type.
`cacheResult` is the answer of `getInstanceCached` for this invocation,
`client` the registry entry, `deleteDeviceOk` the device-deletion
outcome consumed by the logged-out path. -/
def Handle (env : Env) (id : String) (cacheResult : Option Instance) (client : Option Client)
    (deleteDeviceOk : Bool) (evt : RawEvent) : HandleOut :=
  match cacheResult with
  | none => {}
  | some inst =>
    let eventMap := mkEventMap inst
    match evt with
    | .loggedOut =>
      let r := handleLoggedOut (some inst) client deleteDeviceOk
      { emissions := r.1, registryDeleted := r.2 }
    | .message e =>
      let r := handleMessageEvent env id inst e eventMap
      { emissions := r.1, actions := r.2 }
    | .receipt e => { emissions := handleReceiptEvent env id inst e eventMap }
    | .businessName e => { emissions := handleBusinessNameEvent env id inst e eventMap }
    | .contact e => { emissions := handleContactEvent env id inst e eventMap }
    | .picture e => { emissions := handlePictureEvent env id inst e eventMap }
    | .historySync ps cs => { emissions := handleHistorySyncEvent env id inst ps cs eventMap }
    | .groupInfo e => { emissions := handleGroupInfoEvent env id inst e eventMap }
    | .pushName e => { emissions := handlePushNameEvent env id inst e eventMap }
    | .unknown => {}

/-! ## Always-online scheduler -/

/-- `alwaysOnlineIDs.Store(id, v)` on the concurrent side-table,
modelled as a unique-key association list (the Go map's iteration order
is unspecified; no claim depends on order). -/
def storeAO (m : List (String × Bool)) (id : String) (v : Bool) : List (String × Bool) :=
  (id, v) :: m.filter (fun p => p.1 != id)

/-- `alwaysOnlineIDs.Delete(id)`. -/
def deleteAO (m : List (String × Bool)) (id : String) : List (String × Bool) :=
  m.filter (fun p => p.1 != id)

/-- `alwaysOnlineIDs.Load(id)`. -/
def lookupAO (m : List (String × Bool)) (id : String) : Option Bool :=
  (m.find? (fun p => p.1 == id)).map (fun p => p.2)

/-- `enableAlwaysOnline`: store true under the id. -/
def enableAlwaysOnline (m : List (String × Bool)) (id : String) : List (String × Bool) :=
  storeAO m id true

/-- `disableAlwaysOnline`: delete the id. -/
def disableAlwaysOnline (m : List (String × Bool)) (id : String) : List (String × Bool) :=
  deleteAO m id

/-- The Range collection at the top of `processAlwaysOnlineInstances`:
the ids whose flag is enabled. -/
def aoBatchIds (m : List (String × Bool)) : List String :=
  (m.filter (fun p => p.2)).map (fun p => p.1)

/-- One batch worker of `processAlwaysOnlineInstances`: an absent (or
nil) client clears the flag and issues no presence command; a client
that is not connected or not logged in is skipped; otherwise the
"available" presence command is issued (its failure is logged only).
State: (flag table, presence commands issued so far). -/
def processOne (clients : String → Option Client) (st : List (String × Bool) × List String)
    (id : String) : List (String × Bool) × List String :=
  match clients id with
  | none => (deleteAO st.1 id, st.2)
  | some c => if c.connected && c.loggedIn then (st.1, st.2 ++ [id]) else st

/-- `processAlwaysOnlineInstances`: snapshot the enabled ids, process
each (the bounded worker pool joins before the tick ends; the model
serializes the workers, which no claim distinguishes). -/
def processAlwaysOnlineInstances (clients : String → Option Client)
    (m : List (String × Bool)) : List (String × Bool) × List String :=
  (aoBatchIds m).foldl (processOne clients) (m, [])

/-! ## Synchronous command operations -/

/-- The typed failures of the command paths: `whatsmeow.ErrClientIsNil`
from the registry guard, the explicit `fmt.Errorf` failures of
`SendReaction`, and errors surfaced from external collaborators. -/
inductive WErr where
  | clientIsNil
  | emptyReaction
  | invalidMessageID
  | deviceNotConnected
  | external (tag : String)
deriving DecidableEq, Repr

/-- The session-runtime calls a command operation can perform. -/
inductive ClientCall where
  | sendMessage
  | upload
  | markRead
  | sendChatPresence
  | sendAppState
deriving DecidableEq, Repr

/-- `whatsmeow.SendResponse`: message id and timestamp. -/
structure SendResp where
  id : String := ""
  ts : Int := 0
deriving DecidableEq, Repr

/-- Oracle environment for the command paths: the session registry plus
the observable results of each external call (HTTP fetch, body read,
audio conversion, base64 decoding, mimetype sniffing, upload, message
send, receipts, chat presence, app-state patches). -/
structure CmdEnv where
  clients : String → Option Client
  sendMessageRes : Except WErr SendResp
  markReadRes : Option WErr
  chatPresenceRes : Option WErr
  sendAppStateRes : Option WErr
  uploadRes : Except WErr String
  httpGetRes : Except WErr String
  readAllRes : Except WErr String
  convertAudioRes : Except WErr String
  processBase64AudioRes : Except WErr String
  processBase64ImageRes : Except WErr String
  extractMimetypeRes : Except WErr String

/-- `SendText` request (the quoted-message fields only shape the
payload). -/
structure SendText where
  text : String := ""
  instanceID : String := ""
  remoteJID : JID := {}
  quoteMessageID : String := ""
  quoteMessage : String := ""
deriving DecidableEq, Repr

/-- `Whatsmiau.SendText` (the `Op` suffix distinguishes the method from
its request type): registry guard, then one `SendMessage` call. -/
def SendTextOp (env : CmdEnv) (data : SendText) : Except WErr SendResp × List ClientCall :=
  match env.clients data.instanceID with
  | none => (.error .clientIsNil, [])
  | some _ =>
    match env.sendMessageRes with
    | .error e => (.error e, [.sendMessage])
    | .ok r => (.ok { id := r.id, ts := r.ts }, [.sendMessage])

/-- `SendAudioRequest`. -/
structure SendAudioRequest where
  audioURL : String := ""
  instanceID : String := ""
  remoteJID : JID := {}
  viewOnce : Bool := false
deriving DecidableEq, Repr

/-- `Whatsmiau.SendAudio`: registry guard; a data-URI is decoded
locally, otherwise the audio is fetched and converted; then upload and
send. -/
def SendAudioOp (env : CmdEnv) (data : SendAudioRequest) :
    Except WErr SendResp × List ClientCall :=
  match env.clients data.instanceID with
  | none => (.error .clientIsNil, [])
  | some _ =>
    let audioRes : Except WErr String :=
      if data.audioURL.startsWith "data:audio/ogg" || data.audioURL.startsWith "data:audio/opus"
      then env.processBase64AudioRes
      else
        match env.httpGetRes with
        | .error e => .error e
        | .ok _ =>
          match env.readAllRes with
          | .error e => .error e
          | .ok _ => env.convertAudioRes
    match audioRes with
    | .error e => (.error e, [])
    | .ok _ =>
      match env.uploadRes with
      | .error e => (.error e, [.upload])
      | .ok _ =>
        match env.sendMessageRes with
        | .error e => (.error e, [.upload, .sendMessage])
        | .ok r => (.ok { id := r.id, ts := r.ts }, [.upload, .sendMessage])

/-- `SendDocumentRequest`. -/
structure SendDocumentRequest where
  instanceID : String := ""
  mediaURL : String := ""
  caption : String := ""
  fileName : String := ""
  remoteJID : JID := {}
  mimetype : String := ""
deriving DecidableEq, Repr

/-- `Whatsmiau.SendDocument`: registry guard, fetch, read, upload,
send. -/
def SendDocumentOp (env : CmdEnv) (data : SendDocumentRequest) :
    Except WErr SendResp × List ClientCall :=
  match env.clients data.instanceID with
  | none => (.error .clientIsNil, [])
  | some _ =>
    match env.httpGetRes with
    | .error e => (.error e, [])
    | .ok _ =>
      match env.readAllRes with
      | .error e => (.error e, [])
      | .ok _ =>
        match env.uploadRes with
        | .error e => (.error e, [.upload])
        | .ok _ =>
          match env.sendMessageRes with
          | .error e => (.error e, [.upload, .sendMessage])
          | .ok r => (.ok { id := r.id, ts := r.ts }, [.upload, .sendMessage])

/-- `SendImageRequest`. -/
structure SendImageRequest where
  instanceID : String := ""
  mediaURL : String := ""
  caption : String := ""
  remoteJID : JID := {}
  mimetype : String := ""
  viewOnce : Bool := false
deriving DecidableEq, Repr

/-- `Whatsmiau.SendImage`: registry guard; data-URI decoded locally or
fetched; upload; mimetype sniffed when absent (payload only); send. -/
def SendImageOp (env : CmdEnv) (data : SendImageRequest) :
    Except WErr SendResp × List ClientCall :=
  match env.clients data.instanceID with
  | none => (.error .clientIsNil, [])
  | some _ =>
    let bytesRes : Except WErr String :=
      if data.mediaURL.startsWith "data:image/" then env.processBase64ImageRes
      else
        match env.httpGetRes with
        | .error e => .error e
        | .ok _ => env.readAllRes
    match bytesRes with
    | .error e => (.error e, [])
    | .ok _ =>
      match env.uploadRes with
      | .error e => (.error e, [.upload])
      | .ok _ =>
        match env.sendMessageRes with
        | .error e => (.error e, [.upload, .sendMessage])
        | .ok r => (.ok { id := r.id, ts := r.ts }, [.upload, .sendMessage])

/-- `SendVideoRequest`. -/
structure SendVideoRequest where
  instanceID : String := ""
  mediaURL : String := ""
  caption : String := ""
  remoteJID : JID := {}
  mimetype : String := ""
  viewOnce : Bool := false
deriving DecidableEq, Repr

/-- `Whatsmiau.SendVideo`: registry guard, fetch, read, upload, mimetype
fallback (payload only), send. -/
def SendVideoOp (env : CmdEnv) (data : SendVideoRequest) :
    Except WErr SendResp × List ClientCall :=
  match env.clients data.instanceID with
  | none => (.error .clientIsNil, [])
  | some _ =>
    match env.httpGetRes with
    | .error e => (.error e, [])
    | .ok _ =>
      match env.readAllRes with
      | .error e => (.error e, [])
      | .ok _ =>
        match env.uploadRes with
        | .error e => (.error e, [.upload])
        | .ok _ =>
          match env.sendMessageRes with
          | .error e => (.error e, [.upload, .sendMessage])
          | .ok r => (.ok { id := r.id, ts := r.ts }, [.upload, .sendMessage])

/-- `SendReactionRequest`. -/
structure SendReactionRequest where
  instanceID : String := ""
  reaction : String := ""
  remoteJID : JID := {}
  messageID : String := ""
  fromMe : Bool := false
deriving DecidableEq, Repr

/-- `Whatsmiau.SendReaction`: registry guard, explicit validations,
device-store guard, send. -/
def SendReactionOp (env : CmdEnv) (data : SendReactionRequest) :
    Except WErr SendResp × List ClientCall :=
  match env.clients data.instanceID with
  | none => (.error .clientIsNil, [])
  | some c =>
    if data.reaction.length ≤ 0 then (.error .emptyReaction, [])
    else if data.messageID.length ≤ 0 then (.error .invalidMessageID, [])
    else
      match c.storeID with
      | none => (.error .deviceNotConnected, [])
      | some _ =>
        match env.sendMessageRes with
        | .error e => (.error e, [.sendMessage])
        | .ok r => (.ok { id := r.id, ts := r.ts }, [.sendMessage])

/-- `SendMissedCallRequest`. -/
structure SendMissedCallRequest where
  instanceID : String := ""
  remoteJID : JID := {}
  videoCall : Bool := false
deriving DecidableEq, Repr

/-- `Whatsmiau.SendMissedCall`: registry guard, one send. -/
def SendMissedCallOp (env : CmdEnv) (data : SendMissedCallRequest) :
    Except WErr SendResp × List ClientCall :=
  match env.clients data.instanceID with
  | none => (.error .clientIsNil, [])
  | some _ =>
    match env.sendMessageRes with
    | .error e => (.error e, [.sendMessage])
    | .ok r => (.ok { id := r.id, ts := r.ts }, [.sendMessage])

/-- `ReadMessageRequest`. -/
structure ReadMessageRequest where
  messageIDs : List String := []
  instanceID : String := ""
  remoteJID : JID := {}
  sender : Option JID := none
deriving DecidableEq, Repr

/-- `Whatsmiau.ReadMessage`: registry guard, one `MarkRead` call (the
sender defaulting only shapes the payload). -/
def ReadMessageOp (env : CmdEnv) (data : ReadMessageRequest) :
    Except WErr Unit × List ClientCall :=
  match env.clients data.instanceID with
  | none => (.error .clientIsNil, [])
  | some _ =>
    match env.markReadRes with
    | some e => (.error e, [.markRead])
    | none => (.ok (), [.markRead])

/-- `ChatPresenceRequest`. -/
structure ChatPresenceRequest where
  instanceID : String := ""
  remoteJID : JID := {}
  presence : String := ""
  media : String := ""
deriving DecidableEq, Repr

/-- `Whatsmiau.ChatPresence`: registry guard, one `SendChatPresence`
call. -/
def ChatPresenceOp (env : CmdEnv) (data : ChatPresenceRequest) :
    Except WErr Unit × List ClientCall :=
  match env.clients data.instanceID with
  | none => (.error .clientIsNil, [])
  | some _ =>
    match env.chatPresenceRes with
    | some e => (.error e, [.sendChatPresence])
    | none => (.ok (), [.sendChatPresence])

/-- `DeleteChatRequest`. -/
structure DeleteChatRequest where
  instanceID : String := ""
  remoteJID : JID := {}
deriving DecidableEq, Repr

/-- `Whatsmiau.DeleteChat`: registry guard, one app-state patch. -/
def DeleteChatOp (env : CmdEnv) (data : DeleteChatRequest) :
    Except WErr Unit × List ClientCall :=
  match env.clients data.instanceID with
  | none => (.error .clientIsNil, [])
  | some _ =>
    match env.sendAppStateRes with
    | some e => (.error e, [.sendAppState])
    | none => (.ok (), [.sendAppState])

/-- `ArchiveChatRequest`. -/
structure ArchiveChatRequest where
  instanceID : String := ""
  remoteJID : JID := {}
  archive : Bool := false
deriving DecidableEq, Repr

/-- `Whatsmiau.ArchiveChat`: registry guard, one app-state patch. -/
def ArchiveChatOp (env : CmdEnv) (data : ArchiveChatRequest) :
    Except WErr Unit × List ClientCall :=
  match env.clients data.instanceID with
  | none => (.error .clientIsNil, [])
  | some _ =>
    match env.sendAppStateRes with
    | some e => (.error e, [.sendAppState])
    | none => (.ok (), [.sendAppState])

/-- A concrete command environment with an empty session registry. -/
def cmdEnvNone : CmdEnv where
  clients := fun _ => none
  sendMessageRes := .ok {}
  markReadRes := none
  chatPresenceRes := none
  sendAppStateRes := none
  uploadRes := .ok ""
  httpGetRes := .ok ""
  readAllRes := .ok ""
  convertAudioRes := .ok ""
  processBase64AudioRes := .ok ""
  processBase64ImageRes := .ok ""
  extractMimetypeRes := .ok ""

/-- Specification-side statement of the name-resolution contract: emit
the first non-empty candidate, unless there is none or it is
chat-identifier shaped (rejected outright, no fallback). -/
def resolveEmit (cands : List String) : Option String :=
  let n := firstNonEmpty cands
  if n = "" then none
  else if looksLikeChatJid n then none
  else some n

/-- The candidate name sources of `convertBusinessName` in priority
order (the message-derived candidates exist only when the event carries
a message). -/
def bnCandidates (e : BusinessNameEvent) : List String :=
  [e.newBusinessName, e.oldBusinessName] ++
    (match e.message with
     | none => []
     | some m => [m.pushName] ++ (match m.verifiedName with | none => [] | some v => [v]))

/-- The resolved display name of one history-sync conversation: first
non-empty of name, display name, username. -/
def convResolvedName (c : HSConversation) : String :=
  firstNonEmpty [c.name, c.displayName, c.username]

/-! ## Concrete sample inputs used by witnesses and counterexamples -/

/-- A concrete oracle environment: conversion always succeeds, jid/lid
resolution and picture fetch return fixed values, every jid parses. -/
def sampleEnv : Env where
  convertEventMessage := fun _ _ _ => some {}
  getJidLid := fun _ j => (j.user ++ "@" ++ j.server, "")
  getPic := fun _ _ => ("", "")
  parseJID := fun s => some { user := s, server := "" }

/-- Concrete instance subscribed to message upserts only. -/
def instC1 : Instance :=
  { ID := "i1", webhook := { Events := ["MESSAGES_UPSERT"], Url := "http://w1" } }

/-- Concrete inbound direct-chat message event. -/
def evC1 : MessageEvent := { isFromMe := false, chatServer := "s.whatsapp.net" }

/-- The message-upsert payload `Handle` emits for `instC1` / `evC1`. -/
def emW1 : Emission := { kind := .messagesUpsert, url := "http://w1", instanceId := "i1" }

/-- Concrete instance with own-message-skip enabled. -/
def instC5 : Instance :=
  { ID := "i5", webhook := { Events := ["MESSAGES_UPSERT"], Url := "http://w5" },
    SkipOwnMessages := true }

/-- Concrete self-sent message event. -/
def evC5 : MessageEvent := { isFromMe := true, chatServer := "s.whatsapp.net" }

/-- Concrete instance with the auto-read-receipt policy disabled (and
auto-read disabled). -/
def instC6 : Instance :=
  { ID := "i6", webhook := { Events := ["MESSAGES_UPSERT"], Url := "http://w6" },
    ReadMessages := false, AutoReceipt := false }

/-- Concrete inbound non-broadcast message event. -/
def evC6 : MessageEvent := { isFromMe := false, chatServer := "s.whatsapp.net" }

/-- Known instance NOT subscribed to connection updates. -/
def instC7a : Instance :=
  { ID := "i7a", webhook := { Events := ["MESSAGES_UPSERT"], Url := "http://w7" } }

/-- Known instance subscribed to connection updates. -/
def instC7b : Instance :=
  { ID := "i7b", webhook := { Events := ["CONNECTION_UPDATE"], Url := "http://w7" } }

end Whatsmiau

namespace Whatsmiau

/-! ## Theorems: delivery retry (C2) -/

/-- Unfolding of one failing loop iteration. -/
theorem webhookLoop_fail (doRes : Nat → DoResult) (a : Nat)
    (h : doRes a ≠ .status 200) (fuel : Nat) :
    webhookLoop doRes a (fuel + 1) =
      { attempts := (webhookLoop doRes (a + 1) fuel).attempts + 1,
        delays := (if a > 0 then [retryDelays.getD (a - 1) 0] else []) ++
          (webhookLoop doRes (a + 1) fuel).delays,
        delivered := (webhookLoop doRes (a + 1) fuel).delivered } := by
  conv_lhs => rw [webhookLoop]
  simp only [if_neg h]

/-- Unfolding of a succeeding loop iteration. -/
theorem webhookLoop_succ (doRes : Nat → DoResult) (a : Nat)
    (h : doRes a = .status 200) (fuel : Nat) :
    webhookLoop doRes a (fuel + 1) =
      { attempts := 1,
        delays := if a > 0 then [retryDelays.getD (a - 1) 0] else [],
        delivered := true } := by
  conv_lhs => rw [webhookLoop]
  simp only [if_pos h]

/-- The loop never performs more attempts than its fuel allows. -/
theorem webhookLoop_attempts_le (doRes : Nat → DoResult) :
    ∀ fuel a, (webhookLoop doRes a fuel).attempts ≤ fuel := by
  intro fuel
  induction fuel with
  | zero => intro a; simp [webhookLoop]
  | succ n ih =>
    intro a
    by_cases hd : doRes a = .status 200
    · rw [webhookLoop_succ doRes a hd n]
      exact Nat.succ_le_succ (Nat.zero_le n)
    · rw [webhookLoop_fail doRes a hd n]
      exact Nat.succ_le_succ (ih (a + 1))

/-- C2: for a delivery task whose destination never returns HTTP 200,
exactly 4 attempts are made with delays 2s, 5s, 10s between them and the
task is abandoned undelivered; a destination that fails attempt 0 and
succeeds on the 2nd attempt sees exactly 2 attempts and only the 2s
delay; and no run ever makes more than 4 attempts (never a 5th). -/
theorem sendWebhookWithRetry_spec :
    (∀ doRes : Nat → DoResult, (∀ i, doRes i ≠ .status 200) →
      sendWebhookWithRetry true doRes =
        { attempts := 4, delays := [2, 5, 10], delivered := false }) ∧
    (∀ doRes : Nat → DoResult, doRes 0 ≠ .status 200 → doRes 1 = .status 200 →
      sendWebhookWithRetry true doRes =
        { attempts := 2, delays := [2], delivered := true }) ∧
    (∀ marshalOk doRes, (sendWebhookWithRetry marshalOk doRes).attempts ≤ 4) := by
  refine ⟨?_, ?_, ?_⟩
  · intro doRes h
    show webhookLoop doRes 0 4 = _
    rw [webhookLoop_fail doRes 0 (h 0) 3, webhookLoop_fail doRes 1 (h 1) 2,
      webhookLoop_fail doRes 2 (h 2) 1, webhookLoop_fail doRes 3 (h 3) 0]
    rfl
  · intro doRes h0 h1
    show webhookLoop doRes 0 4 = _
    rw [webhookLoop_fail doRes 0 h0 3, webhookLoop_succ doRes 1 h1 2]
    rfl
  · intro marshalOk doRes
    cases marshalOk with
    | false => simp [sendWebhookWithRetry]
    | true => exact webhookLoop_attempts_le doRes 4 0

/-- Witness for C2 at concrete inputs: a destination answering HTTP 500
to every attempt, and one answering 500 then 200. -/
theorem sendWebhookWithRetry_spec_witness :
    sendWebhookWithRetry true (fun _ => .status 500) =
      { attempts := 4, delays := [2, 5, 10], delivered := false } ∧
    sendWebhookWithRetry true (fun i => if i = 0 then .status 500 else .status 200) =
      { attempts := 2, delays := [2], delivered := true } := by
  refine ⟨sendWebhookWithRetry_spec.1 _ (fun i => ?_),
    sendWebhookWithRetry_spec.2.1 _ ?_ ?_⟩ <;> decide

/-! ## Theorems: instance cache (C3, C4) -/

/-- C3 counterexample: on a cache miss, a failing backing lookup does not
yield a not-found (nil) result to the caller — `getInstanceCached`
reaches `zap.L().Panic`, so the call does crash rather than degrade. -/
theorem getInstanceCached_failure_panics :
    (getInstanceCached emptyCache "inst-a" 0 300 (.error ())).1 = .panicked ∧
    LookupOutcome.panicked ≠ LookupOutcome.notFound := by
  exact ⟨rfl, by decide⟩

/-- C3 (amended): on a cache miss or expired entry, a not-found result
from the backing lookup yields nil (not-found) to the caller; a failure
of the backing lookup is treated as fatal — the call panics instead of
returning nil. -/
theorem getInstanceCached_error_handling (st : CacheState) (id : String) (now ttl : Nat)
    (h : cacheGet st id now = none) :
    (getInstanceCached st id now ttl (.ok [])).1 = .notFound ∧
    (getInstanceCached st id now ttl (.error ())).1 = .panicked := by
  constructor <;> simp [getInstanceCached, h]

/-- Witness for the amended C3 theorem at a concrete input. -/
theorem getInstanceCached_error_handling_witness :
    cacheGet emptyCache "inst-a" 0 = none ∧
    (getInstanceCached emptyCache "inst-a" 0 300 (.ok [])).1 = .notFound :=
  ⟨rfl, (getInstanceCached_error_handling emptyCache "inst-a" 0 300 rfl).1⟩

/-- Reading the entry just written: fresh until `t0 + ttl`, gone after. -/
theorem cacheGet_after_set (st : CacheState) (id : String) (i : Instance) (t0 ttl t1 : Nat) :
    cacheGet (cacheSet st id i t0 ttl) id t1 =
      (if t1 > t0 + ttl then none else some i) := by
  simp [cacheGet, cacheSet]

/-- C4: a cold `get` (miss or expiry) that succeeds issues exactly one
backing lookup and stores the result with expiry `t0 + ttl` before
returning it; any `get` within the TTL window returns the cached
snapshot with zero additional lookups and leaves the cache unchanged;
a `get` after the TTL window has expired issues exactly one more backing
lookup and, on success, stores the result with a fresh TTL. -/
theorem instanceCache_ttl (st : CacheState) (id : String) (t0 ttl : Nat) (i : Instance)
    (rest : List Instance) (h : cacheGet st id t0 = none) :
    getInstanceCached st id t0 ttl (.ok (i :: rest)) =
      (.found i, cacheSet st id i t0 ttl, 1) ∧
    (∀ t1 repo2, t1 ≤ t0 + ttl →
      getInstanceCached (cacheSet st id i t0 ttl) id t1 ttl repo2 =
        (.found i, cacheSet st id i t0 ttl, 0)) ∧
    (∀ t1 j rest2, t0 + ttl < t1 →
      getInstanceCached (cacheSet st id i t0 ttl) id t1 ttl (.ok (j :: rest2)) =
        (.found j, cacheSet (cacheSet st id i t0 ttl) id j t1 ttl, 1)) ∧
    (∀ t1 repo2, t0 + ttl < t1 →
      (getInstanceCached (cacheSet st id i t0 ttl) id t1 ttl repo2).2.2 = 1) := by
  refine ⟨?_, ?_, ?_, ?_⟩
  · simp [getInstanceCached, h]
  · intro t1 repo2 hle
    have : cacheGet (cacheSet st id i t0 ttl) id t1 = some i := by
      rw [cacheGet_after_set]
      simp [Nat.not_lt_of_le hle]
    simp [getInstanceCached, this]
  · intro t1 j rest2 hlt
    have : cacheGet (cacheSet st id i t0 ttl) id t1 = none := by
      rw [cacheGet_after_set]
      simp [hlt]
    simp [getInstanceCached, this]
  · intro t1 repo2 hlt
    have : cacheGet (cacheSet st id i t0 ttl) id t1 = none := by
      rw [cacheGet_after_set]
      simp [hlt]
    cases repo2 with
    | error e => simp [getInstanceCached, this]
    | ok l => cases l <;> simp [getInstanceCached, this]

/-- Witness for C4 at concrete inputs. -/
theorem instanceCache_ttl_witness :
    cacheGet emptyCache "inst-a" 10 = none ∧
    getInstanceCached emptyCache "inst-a" 10 300 (.ok [{ ID := "inst-a" }]) =
      (.found { ID := "inst-a" }, cacheSet emptyCache "inst-a" { ID := "inst-a" } 10 300, 1) ∧
    getInstanceCached (cacheSet emptyCache "inst-a" { ID := "inst-a" } 10 300)
        "inst-a" 200 300 (.error ()) =
      (.found { ID := "inst-a" }, cacheSet emptyCache "inst-a" { ID := "inst-a" } 10 300, 0) := by
  have h := instanceCache_ttl emptyCache "inst-a" 10 300 { ID := "inst-a" } [] rfl
  exact ⟨rfl, h.1, h.2.1 200 (.error ()) (by decide)⟩

/-! ## Theorems: subscription filter (C1) -/

/-- A payload emitted by `handleMessageEvent` presupposes the
MESSAGES_UPSERT subscription. -/
theorem handleMessageEvent_kinds (env : Env) (id : String) (inst : Instance)
    (e : MessageEvent) (eventMap : String → Bool) (em : Emission)
    (h : em ∈ (handleMessageEvent env id inst e eventMap).1) :
    eventMap "MESSAGES_UPSERT" = true ∧ em.kind = .messagesUpsert := by
  unfold handleMessageEvent at h
  split at h
  · simp at h
  · next hk =>
    refine ⟨by revert hk; cases eventMap "MESSAGES_UPSERT" <;> simp, ?_⟩
    split at h
    · simp at h
    · split at h
      · simp at h
      · split at h
        · simp at h
        · simp at h
          simp [h]

/-- A payload emitted by `handleReceiptEvent` presupposes the
MESSAGES_UPDATE subscription. -/
theorem handleReceiptEvent_kinds (env : Env) (id : String) (inst : Instance)
    (e : ReceiptEvent) (eventMap : String → Bool) (em : Emission)
    (h : em ∈ handleReceiptEvent env id inst e eventMap) :
    eventMap "MESSAGES_UPDATE" = true ∧ em.kind = .messagesUpdate := by
  unfold handleReceiptEvent at h
  split at h
  · simp at h
  · next hk =>
    refine ⟨by revert hk; cases eventMap "MESSAGES_UPDATE" <;> simp, ?_⟩
    split at h
    · simp at h
    · split at h
      · simp at h
      · simp only [List.mem_map] at h
        obtain ⟨a, _, rfl⟩ := h
        rfl

/-- A payload emitted by `handleBusinessNameEvent` presupposes the
CONTACTS_UPSERT subscription. -/
theorem handleBusinessNameEvent_kinds (env : Env) (id : String) (inst : Instance)
    (e : BusinessNameEvent) (eventMap : String → Bool) (em : Emission)
    (h : em ∈ handleBusinessNameEvent env id inst e eventMap) :
    eventMap "CONTACTS_UPSERT" = true ∧ em.kind = .contactsUpsert := by
  unfold handleBusinessNameEvent at h
  split at h
  · simp at h
  · next hk =>
    refine ⟨by revert hk; cases eventMap "CONTACTS_UPSERT" <;> simp, ?_⟩
    split at h
    · simp at h
    · simp at h
      simp [h]

/-- A payload emitted by `handleContactEvent` presupposes the
CONTACTS_UPSERT subscription. -/
theorem handleContactEvent_kinds (env : Env) (id : String) (inst : Instance)
    (e : ContactEvent) (eventMap : String → Bool) (em : Emission)
    (h : em ∈ handleContactEvent env id inst e eventMap) :
    eventMap "CONTACTS_UPSERT" = true ∧ em.kind = .contactsUpsert := by
  unfold handleContactEvent at h
  split at h
  · simp at h
  · next hk =>
    refine ⟨by revert hk; cases eventMap "CONTACTS_UPSERT" <;> simp, ?_⟩
    split at h
    · simp at h
    · split at h
      · simp at h
      · simp at h
        simp [h]

/-- A payload emitted by `handlePictureEvent` presupposes the
CONTACTS_UPSERT subscription. -/
theorem handlePictureEvent_kinds (env : Env) (id : String) (inst : Instance)
    (e : PictureEvent) (eventMap : String → Bool) (em : Emission)
    (h : em ∈ handlePictureEvent env id inst e eventMap) :
    eventMap "CONTACTS_UPSERT" = true ∧ em.kind = .contactsUpsert := by
  unfold handlePictureEvent at h
  split at h
  · simp at h
  · next hk =>
    refine ⟨by revert hk; cases eventMap "CONTACTS_UPSERT" <;> simp, ?_⟩
    split at h
    · simp at h
    · simp at h
      simp [h]

/-- A payload emitted by `handleHistorySyncEvent` presupposes the
CONTACTS_UPSERT subscription. -/
theorem handleHistorySyncEvent_kinds (env : Env) (id : String) (inst : Instance)
    (ps : List HSPushname) (cs : List HSConversation) (eventMap : String → Bool)
    (em : Emission) (h : em ∈ handleHistorySyncEvent env id inst ps cs eventMap) :
    eventMap "CONTACTS_UPSERT" = true ∧ em.kind = .contactsUpsert := by
  unfold handleHistorySyncEvent at h
  split at h
  · simp at h
  · next hk =>
    refine ⟨by revert hk; cases eventMap "CONTACTS_UPSERT" <;> simp, ?_⟩
    split at h
    · simp at h
    · simp at h
      simp [h]

/-- A payload emitted by `handleGroupInfoEvent` presupposes the
CONTACTS_UPSERT subscription. -/
theorem handleGroupInfoEvent_kinds (env : Env) (id : String) (inst : Instance)
    (e : GroupInfoEvent) (eventMap : String → Bool) (em : Emission)
    (h : em ∈ handleGroupInfoEvent env id inst e eventMap) :
    eventMap "CONTACTS_UPSERT" = true ∧ em.kind = .contactsUpsert := by
  unfold handleGroupInfoEvent at h
  split at h
  · simp at h
  · next hk =>
    refine ⟨by revert hk; cases eventMap "CONTACTS_UPSERT" <;> simp, ?_⟩
    split at h
    · simp at h
    · split at h
      · simp at h
      · simp at h
        simp [h]

/-- A payload emitted by `handlePushNameEvent` presupposes the
CONTACTS_UPSERT subscription. -/
theorem handlePushNameEvent_kinds (env : Env) (id : String) (inst : Instance)
    (e : PushNameEvent) (eventMap : String → Bool) (em : Emission)
    (h : em ∈ handlePushNameEvent env id inst e eventMap) :
    eventMap "CONTACTS_UPSERT" = true ∧ em.kind = .contactsUpsert := by
  unfold handlePushNameEvent at h
  split at h
  · simp at h
  · next hk =>
    refine ⟨by revert hk; cases eventMap "CONTACTS_UPSERT" <;> simp, ?_⟩
    split at h
    · simp at h
    · split at h
      · simp at h
      · simp at h
        simp [h]

/-- A payload emitted by `emitConnectionUpdate` presupposes the
CONNECTION_UPDATE subscription. -/
theorem emitConnectionUpdate_kinds (inst : Instance) (status : String) (em : Emission)
    (h : em ∈ emitConnectionUpdate (some inst) status) :
    mkEventMap inst "CONNECTION_UPDATE" = true ∧ em.kind = .connectionUpdate := by
  simp only [emitConnectionUpdate] at h
  split at h
  · simp at h
  · next hk =>
    refine ⟨by revert hk; cases mkEventMap inst "CONNECTION_UPDATE" <;> simp, ?_⟩
    simp at h
    simp [h]

/-- The emissions of `handleLoggedOut` are those of
`emitConnectionUpdate`, whatever the registry and deletion outcomes. -/
theorem handleLoggedOut_fst (cacheResult : Option Instance) (client : Option Client)
    (delOk : Bool) :
    (handleLoggedOut cacheResult client delOk).1 = emitConnectionUpdate cacheResult "close" := by
  cases client <;> cases delOk <;> rfl

/-- C1: for every instance and every inbound raw event, a payload is
enqueued for delivery only if its event kind's subscription string is in
the instance's webhook event subscription; and an unknown instance
yields no emission at all. -/
theorem handle_subscription_filter (env : Env) (id : String) (inst : Instance)
    (client : Option Client) (delOk : Bool) (evt : RawEvent) (em : Emission)
    (h : em ∈ (Handle env id (some inst) client delOk evt).emissions) :
    inst.webhook.Events.contains (subscriptionKey em.kind) = true := by
  cases evt with
  | loggedOut =>
    simp only [Handle, handleLoggedOut_fst] at h
    have hc := emitConnectionUpdate_kinds inst "close" em h
    rw [hc.2]
    exact hc.1
  | message e =>
    have hc := handleMessageEvent_kinds env id inst e (mkEventMap inst) em (by simpa [Handle] using h)
    rw [hc.2]
    exact hc.1
  | receipt e =>
    have hc := handleReceiptEvent_kinds env id inst e (mkEventMap inst) em (by simpa [Handle] using h)
    rw [hc.2]
    exact hc.1
  | businessName e =>
    have hc := handleBusinessNameEvent_kinds env id inst e (mkEventMap inst) em (by simpa [Handle] using h)
    rw [hc.2]
    exact hc.1
  | contact e =>
    have hc := handleContactEvent_kinds env id inst e (mkEventMap inst) em (by simpa [Handle] using h)
    rw [hc.2]
    exact hc.1
  | picture e =>
    have hc := handlePictureEvent_kinds env id inst e (mkEventMap inst) em (by simpa [Handle] using h)
    rw [hc.2]
    exact hc.1
  | historySync ps cs =>
    have hc := handleHistorySyncEvent_kinds env id inst ps cs (mkEventMap inst) em (by simpa [Handle] using h)
    rw [hc.2]
    exact hc.1
  | groupInfo e =>
    have hc := handleGroupInfoEvent_kinds env id inst e (mkEventMap inst) em (by simpa [Handle] using h)
    rw [hc.2]
    exact hc.1
  | pushName e =>
    have hc := handlePushNameEvent_kinds env id inst e (mkEventMap inst) em (by simpa [Handle] using h)
    rw [hc.2]
    exact hc.1
  | unknown => simp [Handle] at h

/-- Witness for C1 at a concrete input: the message-upsert payload
emitted for a subscribed instance, whose kind is indeed subscribed. -/
theorem handle_subscription_filter_witness :
    emW1 ∈ (Handle sampleEnv "i1" (some instC1) none true (.message evC1)).emissions ∧
    instC1.webhook.Events.contains (subscriptionKey emW1.kind) = true := by
  refine ⟨?_, handle_subscription_filter sampleEnv "i1" instC1 none true (.message evC1) emW1 ?_⟩ <;>
    decide

/-! ## Theorems: own-message skip (C5) -/

/-- C5: for every self-sent message event, if own-message-skip is
enabled, `handleMessageEvent` emits no notification and schedules no
delivery-receipt or read-receipt side channel. -/
theorem selfSent_skipOwn_drops (env : Env) (id : String) (inst : Instance) (e : MessageEvent)
    (eventMap : String → Bool) (hfm : e.isFromMe = true)
    (hskip : inst.SkipOwnMessages = true) :
    handleMessageEvent env id inst e eventMap = ([], []) := by
  have hg : canIgnoreGroup e.chatServer e.isFromMe inst = true := by
    simp [canIgnoreGroup, hfm, hskip]
  unfold handleMessageEvent
  split
  · rfl
  · simp [hg]

/-- Witness for C5 at a concrete input. -/
theorem selfSent_skipOwn_drops_witness :
    evC5.isFromMe = true ∧ instC5.SkipOwnMessages = true ∧
    handleMessageEvent sampleEnv "i5" instC5 evC5 (mkEventMap instC5) = ([], []) :=
  ⟨rfl, rfl, selfSent_skipOwn_drops sampleEnv "i5" instC5 evC5 (mkEventMap instC5) rfl rfl⟩

/-! ## Theorems: receipt scheduling (C6) -/

/-- C6 counterexample: `instC6` has the auto-read-receipt policy
disabled, yet an inbound non-broadcast message that produces a
notification still schedules the delivery receipt — the policy is never
consulted. -/
theorem deliveryReceipt_unconditional :
    instC6.AutoReceipt = false ∧
    (handleMessageEvent sampleEnv "i6" instC6 evC6 (mkEventMap instC6)).2 =
      [Action.deliveryReceipt] := by
  constructor <;> rfl

/-- C6 (amended): for every message event, the delivery receipt is
scheduled exactly when a notification is produced for an inbound
non-broadcast message — REGARDLESS of the auto-read-receipt policy —
and the 8-second-delayed read receipt is scheduled exactly when
additionally the auto-read policy (ReadMessages) is enabled; neither is
scheduled when no notification is produced. -/
theorem receipt_scheduling (env : Env) (id : String) (inst : Instance) (e : MessageEvent)
    (eventMap : String → Bool) :
    (Action.deliveryReceipt ∈ (handleMessageEvent env id inst e eventMap).2 ↔
      ((handleMessageEvent env id inst e eventMap).1 ≠ [] ∧
        e.isFromMe = false ∧ e.chatServer ≠ "broadcast")) ∧
    (Action.readReceiptAfter 8 ∈ (handleMessageEvent env id inst e eventMap).2 ↔
      ((handleMessageEvent env id inst e eventMap).1 ≠ [] ∧ inst.ReadMessages = true ∧
        e.isFromMe = false ∧ e.chatServer ≠ "broadcast")) := by
  unfold handleMessageEvent
  split
  · simp
  · split
    · simp
    · split
      · simp
      · split
        · simp
        · cases hf : e.isFromMe <;> by_cases hb : e.chatServer = "broadcast" <;>
            cases hr : inst.ReadMessages <;>
            simp [hf, hb, hr]

/-! ## Theorems: logged-out handling (C7) -/

/-- C7 counterexample: for a known instance not subscribed to
CONNECTION_UPDATE, the logged-out path emits nothing (the subscription
filter is applied, not bypassed); and when device-credential deletion
fails, the session handle is NOT removed from the registry. -/
theorem loggedOut_filter_and_removal :
    (handleLoggedOut (some instC7a) (some {}) true).1 = [] ∧
    (handleLoggedOut (some instC7b) (some {}) false).2 = false := by
  constructor <;> rfl

/-- C7 (amended): for every logged-out event with a known instance, the
close connection-status notification is emitted iff the instance
subscribes to CONNECTION_UPDATE; the handle is removed from the
registry iff no session handle is registered or the device-credential
deletion succeeds (a deletion failure is reported and prevents the
removal). -/
theorem handleLoggedOut_spec (inst : Instance) (client : Option Client) (delOk : Bool) :
    handleLoggedOut (some inst) client delOk =
      ((if mkEventMap inst "CONNECTION_UPDATE" = true
        then [{ kind := .connectionUpdate, url := inst.webhook.Url,
                instanceId := inst.ID, connStatus := "close" }]
        else []),
       (match client with | none => true | some _ => delOk)) := by
  cases client <;> cases delOk <;>
    cases hb : mkEventMap inst "CONNECTION_UPDATE" <;>
    simp [handleLoggedOut, emitConnectionUpdate, hb]

/-! ## Theorems: contact name resolution (C8) -/

/-- Members of a Go-map assignment: the new binding or an old one. -/
theorem assocSet_mem (m : List (String × WookContact)) (k : String) (v : WookContact)
    (q : String × WookContact) (h : q ∈ assocSet m k v) : q = (k, v) ∨ q ∈ m := by
  unfold assocSet at h
  split at h
  · simp only [List.mem_map] at h
    obtain ⟨p, hp, he⟩ := h
    by_cases hk : (p.1 == k) = true
    · rw [if_pos hk] at he
      left
      exact he.symm
    · rw [if_neg hk] at he
      right
      rw [← he]
      exact hp
  · rcases List.mem_append.mp h with h1 | h2
    · right
      exact h1
    · left
      simpa using h2

/-- A non-empty chat-identifier shaped push name aborts the pushname
loop, whatever the accumulated map. -/
theorem histPushLoop_none (env : Env) (id : String) :
    ∀ (ps : List HSPushname) (m : List (String × WookContact)),
      (∃ p ∈ ps, p.pushname ≠ "" ∧ looksLikeChatJid p.pushname = true) →
      histPushLoop env id ps m = none := by
  intro ps
  induction ps with
  | nil =>
    intro m h
    simp at h
  | cons q rest ih =>
    intro m h
    obtain ⟨p, hp, hne, hbad⟩ := h
    rw [histPushLoop]
    rcases List.mem_cons.mp hp with rfl | hp2
    · rw [if_neg hne, if_pos hbad]
    · by_cases h0 : q.pushname = ""
      · rw [if_pos h0]
        exact ih m ⟨p, hp2, hne, hbad⟩
      · rw [if_neg h0]
        by_cases h1 : looksLikeChatJid q.pushname = true
        · rw [if_pos h1]
        · rw [if_neg h1]
          cases hj : env.parseJID q.id with
          | none => simp [hj]
          | some jid =>
            simp only [hj]
            exact ih _ ⟨p, hp2, hne, hbad⟩

/-- The inline name chain of the conversation loop equals the
first-non-empty resolution. -/
theorem convChain_eq (c : HSConversation) :
    (if (if c.name = "" then c.displayName else c.name) = "" then c.username
     else (if c.name = "" then c.displayName else c.name)) = convResolvedName c := by
  simp only [convResolvedName, firstNonEmpty]
  by_cases h1 : c.name = "" <;> by_cases h2 : c.displayName = "" <;>
    by_cases h3 : c.username = "" <;> simp [h1, h2, h3]

/-- A conversation whose resolved name is non-empty and chat-identifier
shaped aborts the conversation loop, whatever the accumulated map. -/
theorem histConvLoop_none (env : Env) (id : String) :
    ∀ (cs : List HSConversation) (m : List (String × WookContact)),
      (∃ c ∈ cs, convResolvedName c ≠ "" ∧ looksLikeChatJid (convResolvedName c) = true) →
      histConvLoop env id cs m = none := by
  intro cs
  induction cs with
  | nil =>
    intro m h
    simp at h
  | cons q rest ih =>
    intro m h
    obtain ⟨c, hc, hne, hbad⟩ := h
    rw [histConvLoop]
    simp only [convChain_eq]
    rcases List.mem_cons.mp hc with rfl | hc2
    · rw [if_neg hne, if_pos hbad]
    · by_cases h0 : convResolvedName q = ""
      · rw [if_pos h0]
        exact ih m ⟨c, hc2, hne, hbad⟩
      · rw [if_neg h0]
        by_cases h1 : looksLikeChatJid (convResolvedName q) = true
        · rw [if_pos h1]
        · rw [if_neg h1]
          cases hj : env.parseJID q.id with
          | none => simp [hj]
          | some jid =>
            simp only [hj]
            exact ih _ ⟨c, hc2, hne, hbad⟩

/-- Name invariant through the pushname loop: every recorded display
name is one of the incoming push names or was already in the map. -/
theorem histPushLoop_names (env : Env) (id : String) (Q : String → Prop) :
    ∀ (ps : List HSPushname) (m m2 : List (String × WookContact)),
      (∀ p ∈ ps, Q p.pushname) → (∀ q ∈ m, Q q.2.PushName) →
      histPushLoop env id ps m = some m2 → ∀ q ∈ m2, Q q.2.PushName := by
  intro ps
  induction ps with
  | nil =>
    intro m m2 _ hm heq
    rw [histPushLoop] at heq
    cases heq
    exact hm
  | cons p rest ih =>
    intro m m2 hps hm heq
    rw [histPushLoop] at heq
    by_cases h0 : p.pushname = ""
    · rw [if_pos h0] at heq
      exact ih m m2 (fun x hx => hps x (List.mem_cons_of_mem _ hx)) hm heq
    · rw [if_neg h0] at heq
      by_cases h1 : looksLikeChatJid p.pushname = true
      · rw [if_pos h1] at heq
        cases heq
      · rw [if_neg h1] at heq
        cases hj : env.parseJID p.id with
        | none =>
          rw [hj] at heq
          cases heq
        | some jid =>
          rw [hj] at heq
          refine ih _ m2 (fun x hx => hps x (List.mem_cons_of_mem _ hx)) ?_ heq
          intro q hq
          rcases assocSet_mem _ _ _ _ hq with rfl | hq2
          · exact hps p (List.mem_cons_self _ _)
          · exact hm q hq2

/-- Name invariant through the conversation loop. -/
theorem histConvLoop_names (env : Env) (id : String) (Q : String → Prop) :
    ∀ (cs : List HSConversation) (m m2 : List (String × WookContact)),
      (∀ c ∈ cs, Q (convResolvedName c)) → (∀ q ∈ m, Q q.2.PushName) →
      histConvLoop env id cs m = some m2 → ∀ q ∈ m2, Q q.2.PushName := by
  intro cs
  induction cs with
  | nil =>
    intro m m2 _ hm heq
    rw [histConvLoop] at heq
    cases heq
    exact hm
  | cons c rest ih =>
    intro m m2 hcs hm heq
    rw [histConvLoop] at heq
    simp only [convChain_eq] at heq
    by_cases h0 : convResolvedName c = ""
    · rw [if_pos h0] at heq
      exact ih m m2 (fun x hx => hcs x (List.mem_cons_of_mem _ hx)) hm heq
    · rw [if_neg h0] at heq
      by_cases h1 : looksLikeChatJid (convResolvedName c) = true
      · rw [if_pos h1] at heq
        cases heq
      · rw [if_neg h1] at heq
        cases hj : env.parseJID c.id with
        | none =>
          rw [hj] at heq
          cases heq
        | some jid =>
          rw [hj] at heq
          refine ih _ m2 (fun x hx => hcs x (List.mem_cons_of_mem _ hx)) ?_ heq
          intro q hq
          rcases assocSet_mem _ _ _ _ hq with rfl | hq2
          · exact hcs c (List.mem_cons_self _ _)
          · exact hm q hq2

/-- The final collection loop preserves recorded display names. -/
theorem histFinal_names (env : Env) (id : String) (Q : String → Prop) :
    ∀ m, (∀ q ∈ m, Q q.2.PushName) → ∀ c ∈ histFinal env id m, Q c.PushName := by
  intro m
  induction m with
  | nil =>
    intro _ c hc
    simp [histFinal] at hc
  | cons q rest ih =>
    intro hm c hc
    obtain ⟨k, v⟩ := q
    rw [histFinal] at hc
    cases hj : env.parseJID v.RemoteJid with
    | none =>
      rw [hj] at hc
      exact ih (fun x hx => hm x (List.mem_cons_of_mem _ hx)) c hc
    | some jid =>
      rw [hj] at hc
      rcases List.mem_cons.mp hc with rfl | hc2
      · exact hm (k, v) (List.mem_cons_self _ _)
      · exact ih (fun x hx => hm x (List.mem_cons_of_mem _ hx)) c hc2

/-- C8 (amended): for the contact and group-info sources, the emitted
display name is the first non-empty candidate in priority order, with an
all-empty resolution or a chat-identifier shaped resolved name rejected
outright; for the push-name source the same resolution decides WHETHER a
contact is emitted, but the emitted name field is always the new push
name (empty when the resolution fell back to the old name); for the
business-name source the resolved name is emitted even when empty, with
only the chat-identifier rejection applied; and for history-sync, a
non-empty chat-identifier shaped candidate aborts the whole batch (no
notification for any identity), while every emitted contact's name stems
from a push name or a first-non-empty conversation resolution. -/
theorem contact_name_resolution :
    (∀ (env : Env) (id : String) (e : ContactEvent),
      (convertContact env id e).map WookContact.PushName =
        resolveEmit [e.firstName, e.fullName, e.username]) ∧
    (∀ (env : Env) (id : String) (e : GroupInfoEvent),
      (convertGroupInfo env id e).map WookContact.PushName =
        resolveEmit [e.name.getD ""]) ∧
    (∀ (env : Env) (id : String) (e : PushNameEvent),
      (convertPushName env id e).map WookContact.PushName =
        (resolveEmit [e.newPushName, e.oldPushName]).map (fun _ => e.newPushName)) ∧
    (∀ (env : Env) (id : String) (e : BusinessNameEvent),
      (convertBusinessName env id e).map WookContact.PushName =
        (if looksLikeChatJid (firstNonEmpty (bnCandidates e)) then none
         else some (firstNonEmpty (bnCandidates e)))) ∧
    (∀ (env : Env) (id : String) (ps : List HSPushname) (cs : List HSConversation),
      (∃ p ∈ ps, p.pushname ≠ "" ∧ looksLikeChatJid p.pushname = true) →
      convertContactHistorySync env id ps cs = none) ∧
    (∀ (env : Env) (id : String) (ps : List HSPushname) (cs : List HSConversation),
      (∃ c ∈ cs, convResolvedName c ≠ "" ∧ looksLikeChatJid (convResolvedName c) = true) →
      convertContactHistorySync env id ps cs = none) ∧
    (∀ (env : Env) (id : String) (ps : List HSPushname) (cs : List HSConversation) l,
      convertContactHistorySync env id ps cs = some l →
      ∀ c ∈ l, (∃ p ∈ ps, c.PushName = p.pushname) ∨
        (∃ conv ∈ cs, c.PushName = convResolvedName conv)) := by
  refine ⟨?_, ?_, ?_, ?_, ?_, ?_, ?_⟩
  · intro env id e
    simp only [convertContact, resolveEmit, firstNonEmpty]
    by_cases h1 : e.firstName = "" <;> by_cases h2 : e.fullName = "" <;>
      by_cases h3 : e.username = "" <;> simp [h1, h2, h3] <;> split <;> simp
  · intro env id e
    cases hn : e.name with
    | none => simp [convertGroupInfo, resolveEmit, firstNonEmpty, hn]
    | some n =>
      simp only [convertGroupInfo, resolveEmit, firstNonEmpty, hn, Option.getD]
      by_cases h1 : n = "" <;> [simp [h1]; skip]
      simp [h1]
      split <;> simp
  · intro env id e
    simp only [convertPushName, resolveEmit, firstNonEmpty]
    by_cases h1 : e.newPushName = "" <;> by_cases h2 : e.oldPushName = "" <;>
      simp [h1, h2] <;> split <;> simp
  · intro env id e
    cases hm : e.message with
    | none =>
      simp only [convertBusinessName, bnCandidates, firstNonEmpty, hm]
      by_cases h1 : e.newBusinessName = "" <;> by_cases h2 : e.oldBusinessName = "" <;>
        simp [h1, h2] <;> split <;> simp
    | some msg =>
      cases hv : msg.verifiedName with
      | none =>
        simp only [convertBusinessName, bnCandidates, firstNonEmpty, hm, hv]
        by_cases h1 : e.newBusinessName = "" <;> by_cases h2 : e.oldBusinessName = "" <;>
          by_cases h3 : msg.pushName = "" <;> simp [h1, h2, h3] <;> split <;> simp
      | some v =>
        simp only [convertBusinessName, bnCandidates, firstNonEmpty, hm, hv]
        by_cases h1 : e.newBusinessName = "" <;> by_cases h2 : e.oldBusinessName = "" <;>
          by_cases h3 : msg.pushName = "" <;> by_cases h4 : v = "" <;>
          simp [h1, h2, h3, h4] <;> split <;> simp
  · intro env id ps cs h
    simp [convertContactHistorySync, histPushLoop_none env id ps _ h]
  · intro env id ps cs h
    unfold convertContactHistorySync
    cases hp : histPushLoop env id ps [] with
    | none => rfl
    | some m => simp [histConvLoop_none env id cs m h]
  · intro env id ps cs l heq c hc
    unfold convertContactHistorySync at heq
    split at heq
    · cases heq
    · next m hp =>
      split at heq
      · cases heq
      · next m2 hcv =>
        have heq2 : (if (histFinal env id m2).isEmpty = true then none
            else some (histFinal env id m2)) = some l := heq
        split at heq2
        · cases heq2
        · cases heq2
          have hm : ∀ q ∈ m, (∃ p ∈ ps, q.2.PushName = p.pushname) ∨
              (∃ conv ∈ cs, q.2.PushName = convResolvedName conv) := by
            intro q hq
            exact histPushLoop_names env id
              (fun s => (∃ p ∈ ps, s = p.pushname) ∨ (∃ conv ∈ cs, s = convResolvedName conv))
              ps [] m (fun p hp2 => Or.inl ⟨p, hp2, rfl⟩) (by simp) hp q hq
          have hm2 : ∀ q ∈ m2, (∃ p ∈ ps, q.2.PushName = p.pushname) ∨
              (∃ conv ∈ cs, q.2.PushName = convResolvedName conv) :=
            histConvLoop_names env id
              (fun s => (∃ p ∈ ps, s = p.pushname) ∨ (∃ conv ∈ cs, s = convResolvedName conv))
              cs m m2 (fun conv hc2 => Or.inr ⟨conv, hc2, rfl⟩) hm hcv
          exact histFinal_names env id
            (fun s => (∃ p ∈ ps, s = p.pushname) ∨ (∃ conv ∈ cs, s = convResolvedName conv))
            m2 hm2 c hc

/-- C8 counterexample: a push-name event whose new name is empty and
whose old name is "Alice" emits a contact whose display name is "" —
not the first non-empty candidate "Alice". -/
theorem pushName_emits_new_name :
    (convertPushName sampleEnv "i8"
        { jid := {}, newPushName := "", oldPushName := "Alice" }).map WookContact.PushName =
      some "" ∧
    firstNonEmpty ["", "Alice"] = "Alice" := by
  constructor <;> rfl

/-- Witness for the amended C8 theorem: a chat-identifier shaped push
name aborts a history-sync conversion. -/
theorem contact_name_resolution_witness :
    convertContactHistorySync sampleEnv "i8"
      [{ id := "123", pushname := "bad@g.us" }] [] = none :=
  contact_name_resolution.2.2.2.2.1 sampleEnv "i8"
    [{ id := "123", pushname := "bad@g.us" }] []
    ⟨{ id := "123", pushname := "bad@g.us" }, by simp, by decide, by decide⟩

/-! ## Theorems: always-online scheduler (C9) -/

/-- A batch worker never adds a flag entry. -/
theorem processOne_subset (clients : String → Option Client)
    (st : List (String × Bool) × List String) (x : String) (p : String × Bool)
    (h : p ∈ (processOne clients st x).1) : p ∈ st.1 := by
  cases hc : clients x with
  | none =>
    simp only [processOne, hc, deleteAO, List.mem_filter] at h
    exact h.1
  | some c =>
    simp only [processOne, hc] at h
    split at h <;> exact h

/-- A flag whose client is present survives any single worker. -/
theorem processOne_keeps (clients : String → Option Client)
    (st : List (String × Bool) × List String) (x : String) (p : String × Bool)
    (hp : p ∈ st.1) (hcl : clients p.1 ≠ none) : p ∈ (processOne clients st x).1 := by
  cases hc : clients x with
  | none =>
    simp only [processOne, hc, deleteAO, List.mem_filter]
    refine ⟨hp, ?_⟩
    have hne : p.1 ≠ x := fun he => hcl (he ▸ hc)
    simpa using hne
  | some c =>
    simp only [processOne, hc]
    split <;> exact hp

/-- A worker never issues a presence command for an id with no
client. -/
theorem processOne_cmds (clients : String → Option Client)
    (st : List (String × Bool) × List String) (x id : String)
    (hcl : clients id = none) (hid : id ∉ st.2) : id ∉ (processOne clients st x).2 := by
  cases hc : clients x with
  | none => simpa [processOne, hc] using hid
  | some c =>
    simp only [processOne, hc]
    split
    · intro hmem
      rcases List.mem_append.mp hmem with h1 | h2
      · exact hid h1
      · simp only [List.mem_singleton] at h2
        subst h2
        rw [hc] at hcl
        cases hcl
    · exact hid

/-- Processing an id with no client removes its flag. -/
theorem processOne_removes (clients : String → Option Client)
    (st : List (String × Bool) × List String) (id : String) (hcl : clients id = none) :
    id ∉ (processOne clients st id).1.map (fun p => p.1) := by
  simp only [processOne, hcl, deleteAO]
  intro hmem
  simp only [List.mem_map] at hmem
  obtain ⟨p, hp, he⟩ := hmem
  have hne := (List.mem_filter.mp hp).2
  rw [he] at hne
  simp at hne

/-- A worker never re-introduces a removed key. -/
theorem processOne_keys_mono (clients : String → Option Client)
    (st : List (String × Bool) × List String) (x id : String)
    (h : id ∉ st.1.map (fun p => p.1)) :
    id ∉ (processOne clients st x).1.map (fun p => p.1) := by
  intro hmem
  simp only [List.mem_map] at hmem
  obtain ⟨p, hp, he⟩ := hmem
  exact h (List.mem_map.mpr ⟨p, processOne_subset clients st x p hp, he⟩)

/-- Through the whole batch fold: an id with no client ends up with no
flag and no presence command. -/
theorem foldl_no_id (clients : String → Option Client) (id : String)
    (hcl : clients id = none) :
    ∀ (l : List String) (st : List (String × Bool) × List String),
      (id ∈ l ∨ id ∉ st.1.map (fun p => p.1)) → id ∉ st.2 →
      id ∉ (l.foldl (processOne clients) st).1.map (fun p => p.1) ∧
      id ∉ (l.foldl (processOne clients) st).2 := by
  intro l
  induction l with
  | nil =>
    intro st hd hc2
    rcases hd with h | h
    · simp at h
    · exact ⟨h, hc2⟩
  | cons x rest ih =>
    intro st hd hc2
    simp only [List.foldl_cons]
    apply ih
    · rcases hd with h | h
      · rcases List.mem_cons.mp h with rfl | h2
        · right
          exact processOne_removes clients st id hcl
        · left
          exact h2
      · right
        exact processOne_keys_mono clients st x id h
    · exact processOne_cmds clients st x id hcl hc2

/-- Through the whole batch fold: no flag entry is added or altered. -/
theorem foldl_subset (clients : String → Option Client) :
    ∀ (l : List String) (st : List (String × Bool) × List String) (p : String × Bool),
      p ∈ (l.foldl (processOne clients) st).1 → p ∈ st.1 := by
  intro l
  induction l with
  | nil => intro st p h; exact h
  | cons x rest ih =>
    intro st p h
    exact processOne_subset clients st x p (ih _ p h)

/-- Through the whole batch fold: entries whose client is present
survive. -/
theorem foldl_keeps (clients : String → Option Client) :
    ∀ (l : List String) (st : List (String × Bool) × List String) (p : String × Bool),
      p ∈ st.1 → clients p.1 ≠ none → p ∈ (l.foldl (processOne clients) st).1 := by
  intro l
  induction l with
  | nil => intro st p h _; exact h
  | cons x rest ih =>
    intro st p h hcl
    exact ih _ p (processOne_keeps clients st x p h hcl) hcl

/-- C9: enabling then disabling an id excludes it from the next batch;
an enabled id whose session handle is absent at batch time has its flag
cleared and no presence command issued for it; the batch never adds or
alters flags (the new table is a sub-multiset of the old), an entry
whose client is present survives the batch untouched, and enable /
disable are exactly store-true / delete-key — the only transitions. -/
theorem alwaysOnline_state_machine :
    (∀ (m : List (String × Bool)) (id : String),
      id ∉ aoBatchIds (disableAlwaysOnline (enableAlwaysOnline m id) id)) ∧
    (∀ (clients : String → Option Client) (m : List (String × Bool)) (id : String),
      (id, true) ∈ m → clients id = none →
      id ∉ (processAlwaysOnlineInstances clients m).1.map (fun p => p.1) ∧
      id ∉ (processAlwaysOnlineInstances clients m).2) ∧
    (∀ (clients : String → Option Client) (m : List (String × Bool)) (p : String × Bool),
      p ∈ (processAlwaysOnlineInstances clients m).1 → p ∈ m) ∧
    (∀ (clients : String → Option Client) (m : List (String × Bool)) (p : String × Bool),
      p ∈ m → clients p.1 ≠ none → p ∈ (processAlwaysOnlineInstances clients m).1) ∧
    (∀ (m : List (String × Bool)) (id : String),
      lookupAO (enableAlwaysOnline m id) id = some true) ∧
    (∀ (m : List (String × Bool)) (id : String),
      lookupAO (disableAlwaysOnline m id) id = none) := by
  refine ⟨?_, ?_, ?_, ?_, ?_, ?_⟩
  · intro m id hmem
    simp only [aoBatchIds, disableAlwaysOnline, deleteAO, List.mem_map,
      List.mem_filter] at hmem
    obtain ⟨p, ⟨⟨_, hne⟩, _⟩, he⟩ := hmem
    rw [he] at hne
    simp at hne
  · intro clients m id hm hcl
    have hid : id ∈ aoBatchIds m := by
      simp only [aoBatchIds, List.mem_map]
      exact ⟨(id, true), List.mem_filter.mpr ⟨hm, rfl⟩, rfl⟩
    exact foldl_no_id clients id hcl (aoBatchIds m) (m, []) (Or.inl hid) (by simp)
  · intro clients m p h
    exact foldl_subset clients (aoBatchIds m) (m, []) p h
  · intro clients m p h hcl
    exact foldl_keeps clients (aoBatchIds m) (m, []) p h hcl
  · intro m id
    simp [lookupAO, enableAlwaysOnline, storeAO, List.find?_cons]
  · intro m id
    have hfind : List.find? (fun p => p.1 == id) (m.filter (fun p => p.1 != id)) = none := by
      rw [List.find?_eq_none]
      intro p hp
      have hne := (List.mem_filter.mp hp).2
      simp only [bne_iff_ne] at hne
      simp [hne]
    simp [lookupAO, disableAlwaysOnline, deleteAO, hfind]

/-- Witness for C9 at concrete inputs. -/
theorem alwaysOnline_state_machine_witness :
    ("a", true) ∈ [("a", true)] ∧
    (fun _ => (none : Option Client)) "a" = none ∧
    "a" ∉ (processAlwaysOnlineInstances (fun _ => none) [("a", true)]).1.map
      (fun p => p.1) ∧
    "a" ∉ (processAlwaysOnlineInstances (fun _ => none) [("a", true)]).2 := by
  have h := alwaysOnline_state_machine.2.1 (fun _ => none) [("a", true)] "a"
    (by simp) rfl
  exact ⟨by simp, rfl, h.1, h.2⟩

/-! ## Theorems: command operations on absent sessions (C10) -/

/-- C10: every synchronous command operation invoked for an instance id
with no registered session handle returns `ErrClientIsNil` and performs
no call against any session runtime. -/
theorem command_clientIsNil :
    (∀ (env : CmdEnv) (data : SendText), env.clients data.instanceID = none →
      SendTextOp env data = (.error .clientIsNil, [])) ∧
    (∀ (env : CmdEnv) (data : SendAudioRequest), env.clients data.instanceID = none →
      SendAudioOp env data = (.error .clientIsNil, [])) ∧
    (∀ (env : CmdEnv) (data : SendImageRequest), env.clients data.instanceID = none →
      SendImageOp env data = (.error .clientIsNil, [])) ∧
    (∀ (env : CmdEnv) (data : SendVideoRequest), env.clients data.instanceID = none →
      SendVideoOp env data = (.error .clientIsNil, [])) ∧
    (∀ (env : CmdEnv) (data : SendDocumentRequest), env.clients data.instanceID = none →
      SendDocumentOp env data = (.error .clientIsNil, [])) ∧
    (∀ (env : CmdEnv) (data : SendReactionRequest), env.clients data.instanceID = none →
      SendReactionOp env data = (.error .clientIsNil, [])) ∧
    (∀ (env : CmdEnv) (data : SendMissedCallRequest), env.clients data.instanceID = none →
      SendMissedCallOp env data = (.error .clientIsNil, [])) ∧
    (∀ (env : CmdEnv) (data : ReadMessageRequest), env.clients data.instanceID = none →
      ReadMessageOp env data = (.error .clientIsNil, [])) ∧
    (∀ (env : CmdEnv) (data : ChatPresenceRequest), env.clients data.instanceID = none →
      ChatPresenceOp env data = (.error .clientIsNil, [])) ∧
    (∀ (env : CmdEnv) (data : DeleteChatRequest), env.clients data.instanceID = none →
      DeleteChatOp env data = (.error .clientIsNil, [])) ∧
    (∀ (env : CmdEnv) (data : ArchiveChatRequest), env.clients data.instanceID = none →
      ArchiveChatOp env data = (.error .clientIsNil, [])) := by
  refine ⟨?_, ?_, ?_, ?_, ?_, ?_, ?_, ?_, ?_, ?_, ?_⟩ <;>
    · intro env data h
      simp only [SendTextOp, SendAudioOp, SendImageOp, SendVideoOp, SendDocumentOp,
        SendReactionOp, SendMissedCallOp, ReadMessageOp, ChatPresenceOp, DeleteChatOp,
        ArchiveChatOp, h]

/-- Witness for C10: every operation evaluated against the empty
registry at its default request. -/
theorem command_clientIsNil_witness :
    cmdEnvNone.clients "" = none ∧
    SendTextOp cmdEnvNone {} = (.error .clientIsNil, []) ∧
    SendAudioOp cmdEnvNone {} = (.error .clientIsNil, []) ∧
    SendImageOp cmdEnvNone {} = (.error .clientIsNil, []) ∧
    SendVideoOp cmdEnvNone {} = (.error .clientIsNil, []) ∧
    SendDocumentOp cmdEnvNone {} = (.error .clientIsNil, []) ∧
    SendReactionOp cmdEnvNone {} = (.error .clientIsNil, []) ∧
    SendMissedCallOp cmdEnvNone {} = (.error .clientIsNil, []) ∧
    ReadMessageOp cmdEnvNone {} = (.error .clientIsNil, []) ∧
    ChatPresenceOp cmdEnvNone {} = (.error .clientIsNil, []) ∧
    DeleteChatOp cmdEnvNone {} = (.error .clientIsNil, []) ∧
    ArchiveChatOp cmdEnvNone {} = (.error .clientIsNil, []) :=
  ⟨rfl,
   command_clientIsNil.1 cmdEnvNone {} rfl,
   command_clientIsNil.2.1 cmdEnvNone {} rfl,
   command_clientIsNil.2.2.1 cmdEnvNone {} rfl,
   command_clientIsNil.2.2.2.1 cmdEnvNone {} rfl,
   command_clientIsNil.2.2.2.2.1 cmdEnvNone {} rfl,
   command_clientIsNil.2.2.2.2.2.1 cmdEnvNone {} rfl,
   command_clientIsNil.2.2.2.2.2.2.1 cmdEnvNone {} rfl,
   command_clientIsNil.2.2.2.2.2.2.2.1 cmdEnvNone {} rfl,
   command_clientIsNil.2.2.2.2.2.2.2.2.1 cmdEnvNone {} rfl,
   command_clientIsNil.2.2.2.2.2.2.2.2.2.1 cmdEnvNone {} rfl,
   command_clientIsNil.2.2.2.2.2.2.2.2.2.2 cmdEnvNone {} rfl⟩

end Whatsmiau
